import Mathlib

/-!
Verification of the batch tweet-processing pipeline (`src/batch_process_tweets.py`,
`src/api_client.py`) against its natural-language specification.

The Python source is shallowly embedded: the multi-provider failover caller
(`_call_api_for_task`), the record processor (`process_single_tweet` and its
helpers), the progress tracker (`_save_progress`, `get_auto_start_index`), the
batch runner (`_process_batch` / `process_dataset`), and the rate-limit reset
loop are translated into executable Lean definitions.  External effects are
made explicit: API responses become oracles (`CallConfig.response`), the
filesystem becomes an explicit `FS` value, sleeps and API invocations are
recorded in output lists, and the mutable `api_stats` dictionary becomes a
threaded `Stats` function.
-/

/-- `self.api_stats`: a Python dict from provider name to count, with missing
keys read as 0 (`api_stats.get(p, 0)`).  Modelled as a total function. -/
def Stats : Type := String → Nat

/-- `self.api_stats[p] = self.api_stats.get(p, 0) + 1`. -/
def incr (s : Stats) (p : String) : Stats :=
  fun q => if q = p then s q + 1 else s q

theorem incr_self (s : Stats) (p : String) : incr s p p = s p + 1 := by
  simp [incr]

theorem incr_other (s : Stats) (p q : String) (h : q ≠ p) : incr s p q = s q := by
  simp [incr, h]

/-- Python truthiness of an `Optional[str]`: `None` and `""` are falsy
(`if response:` in the source). -/
def pyTruthy : Option String → Bool
  | none => false
  | some s => s ≠ ""

/-- One (provider, model) candidate endpoint, i.e. the `api_info` dicts built
from a task's `primary` / `fallback` / `fallback2` / `fallback3` entries. -/
structure ApiInfo where
  provider : String
  model : String
deriving DecidableEq, Inhabited

/-- Environment of one `_call_api_for_task` invocation:
  * `candidates` — the `api_configs` list, in priority order;
  * `clientOk c` — whether `_get_client(c.provider, c.model)` returns a client
    (it returns `None` for disabled providers or missing keys);
  * `response a i` — the value `client.call_api(...)` returns when invoked at
    attempt `a` for the candidate at position `i` (an oracle for the external
    endpoint; `none` models an exception path that returned `None`). -/
structure CallConfig where
  candidates : List ApiInfo
  clientOk : ApiInfo → Bool
  response : Nat → Nat → Option String

/-- Outcome of walking the candidate list once (the inner `for api_label,
api_info in api_configs` loop): the returned response, the provider recorded
as the success (`winner`), and the `(attempt, candidate-index)` pairs at which
`client.call_api` was actually invoked. -/
structure AttemptRes where
  result : Option String
  winner : Option String
  calls : List (Nat × Nat)
deriving DecidableEq

/-- The inner candidate loop of `_call_api_for_task` (lines 145-154): for each
candidate obtain the client; if it exists, invoke `call_api`; a truthy
response is returned immediately (recording the provider), otherwise the next
candidate is tried.  A missing client skips the invocation entirely. -/
def tryCandidates (cfg : CallConfig) (attempt : Nat) : Nat → List ApiInfo → AttemptRes
  | _, [] => ⟨none, none, []⟩
  | idx, c :: rest =>
    if cfg.clientOk c then
      let r := cfg.response attempt idx
      if pyTruthy r then
        ⟨r, some c.provider, [(attempt, idx)]⟩
      else
        let t := tryCandidates cfg attempt (idx + 1) rest
        ⟨t.result, t.winner, (attempt, idx) :: t.calls⟩
    else
      tryCandidates cfg attempt (idx + 1) rest

/-- Outcome of the outer retry loop: response, successful provider (if any),
all `call_api` invocations, and the durations of the `time.sleep` calls
between fully-failed attempts. -/
structure TaskRunRes where
  result : Option String
  winner : Option String
  calls : List (Nat × Nat)
  sleeps : List Nat
deriving DecidableEq

/-- The outer `for attempt in range(max_retries)` loop of `_call_api_for_task`
(lines 143-160): each attempt walks the whole candidate list; a success
returns immediately; after a fully-failed attempt that is not the last, the
code sleeps `5 * (attempt + 1)` seconds. -/
def runAttempts (cfg : CallConfig) (maxRetries : Nat) : List Nat → TaskRunRes
  | [] => ⟨none, none, [], []⟩
  | a :: rest =>
    let t := tryCandidates cfg a 0 cfg.candidates
    match t.result with
    | some s => ⟨some s, t.winner, t.calls, []⟩
    | none =>
      let r := runAttempts cfg maxRetries rest
      let sl := if a < maxRetries - 1 then [5 * (a + 1)] else []
      ⟨r.result, r.winner, t.calls ++ r.calls, sl ++ r.sleeps⟩

/-- Usage-statistics update of `_call_api_for_task`: on success the winning
provider's count is incremented (line 151); if every attempt failed, the
sentinel `"failed"` counter is incremented exactly once (line 163). -/
def applyWinner (stats : Stats) : Option String → Stats
  | some p => incr stats p
  | none => incr stats "failed"

/-- Full observable outcome of one `_call_api_for_task` invocation. -/
structure CallOut where
  result : Option String
  stats : Stats
  calls : List (Nat × Nat)
  sleeps : List Nat

/-- `_call_api_for_task(task_name, system, user, max_retries)` (lines
124-164).  `tc = none` models a task name absent from the configuration
(`get_task_config` falsy): the function returns `None` at once, with no
invocation and no statistics change. -/
def callApiForTask (tc : Option CallConfig) (maxRetries : Nat) (stats : Stats) : CallOut :=
  match tc with
  | none => ⟨none, stats, [], []⟩
  | some cfg =>
    let r := runAttempts cfg maxRetries (List.range maxRetries)
    ⟨r.result, applyWinner stats r.winner, r.calls, r.sleeps⟩

/-- The `api_configs` assembly of lines 133-141: present (truthy) entries of
`primary`, `fallback`, `fallback2`, `fallback3`, in that order. -/
def buildApiConfigs (primary fb fb2 fb3 : Option ApiInfo) : List ApiInfo :=
  primary.toList ++ fb.toList ++ fb2.toList ++ fb3.toList

theorem buildApiConfigs_three (a b c : ApiInfo) :
    buildApiConfigs (some a) (some b) (some c) none = [a, b, c] := by
  simp [buildApiConfigs]

/-- A fully-failed walk of the candidate list: if at attempt `a` every
candidate whose client exists answers falsy, the inner loop returns no
result, records no winner, and every logged invocation is at attempt `a`. -/
theorem tryCandidates_all_fail (cfg : CallConfig) (a : Nat) :
    ∀ (l : List ApiInfo) (idx : Nat),
    (∀ i, i < l.length → cfg.clientOk (l.getD i default) = true →
      pyTruthy (cfg.response a (idx + i)) = false) →
    (tryCandidates cfg a idx l).result = none ∧
    (tryCandidates cfg a idx l).winner = none ∧
    (∀ e ∈ (tryCandidates cfg a idx l).calls, e.1 = a) := by
  intro l
  induction l with
  | nil => intro idx _; simp [tryCandidates]
  | cons c rest ih =>
    intro idx h
    by_cases hc : cfg.clientOk c = true
    · have h0 : pyTruthy (cfg.response a idx) = false := by
        have := h 0 (by simp) (by simpa using hc)
        simpa using this
      have hrest : ∀ i, i < rest.length →
          cfg.clientOk (rest.getD i default) = true →
          pyTruthy (cfg.response a (idx + 1 + i)) = false := by
        intro i hi hok
        have := h (i + 1) (by simpa using Nat.succ_lt_succ hi) (by simpa using hok)
        have harith : idx + (i + 1) = idx + 1 + i := by omega
        rwa [harith] at this
      obtain ⟨h1, h2, h3⟩ := ih (idx + 1) hrest
      refine ⟨?_, ?_, ?_⟩
      · simp only [tryCandidates, hc, if_true, h0, if_false]
        exact h1
      · simp only [tryCandidates, hc, if_true, h0, if_false]
        exact h2
      · simp only [tryCandidates, hc, if_true, h0, if_false]
        intro e he
        rcases List.mem_cons.mp he with h | h
        · rw [h]
        · exact h3 e h
    · have hc' : cfg.clientOk c = false := by
        revert hc; cases cfg.clientOk c <;> simp
      have hrest : ∀ i, i < rest.length →
          cfg.clientOk (rest.getD i default) = true →
          pyTruthy (cfg.response a (idx + 1 + i)) = false := by
        intro i hi hok
        have := h (i + 1) (by simpa using Nat.succ_lt_succ hi) (by simpa using hok)
        have harith : idx + (i + 1) = idx + 1 + i := by omega
        rwa [harith] at this
      obtain ⟨h1, h2, h3⟩ := ih (idx + 1) hrest
      simp only [tryCandidates, hc', if_false]
      exact ⟨h1, h2, h3⟩

/-- Walking exactly `[A, B, C]` where `A` and `B` answer falsy and `C`
answers a non-empty string: the loop invokes all three in order and
returns `C`'s answer, recording `C.provider` as the winner. -/
theorem tryCandidates_abc (cfg : CallConfig) (A B C : ApiInfo) (a : Nat) (t : String)
    (hA : cfg.clientOk A = true) (hB : cfg.clientOk B = true) (hC : cfg.clientOk C = true)
    (h0 : pyTruthy (cfg.response a 0) = false)
    (h1 : pyTruthy (cfg.response a 1) = false)
    (h2 : cfg.response a 2 = some t) (ht : t ≠ "") :
    tryCandidates cfg a 0 [A, B, C] = ⟨some t, some C.provider, [(a, 0), (a, 1), (a, 2)]⟩ := by
  have htt : pyTruthy (some t) = true := by simpa [pyTruthy] using ht
  have h2t : pyTruthy (cfg.response a 2) = true := by rw [h2]; exact htt
  simp [tryCandidates, hA, hB, hC, h0, h1, h2, h2t, htt]

/-- Walking exactly `[A, B, C]` where all three clients exist and all three
answer falsy: no result, no winner, all three invoked in order. -/
theorem tryCandidates_abc_fail (cfg : CallConfig) (A B C : ApiInfo) (a : Nat)
    (hA : cfg.clientOk A = true) (hB : cfg.clientOk B = true) (hC : cfg.clientOk C = true)
    (h0 : pyTruthy (cfg.response a 0) = false)
    (h1 : pyTruthy (cfg.response a 1) = false)
    (h2 : pyTruthy (cfg.response a 2) = false) :
    tryCandidates cfg a 0 [A, B, C] = ⟨none, none, [(a, 0), (a, 1), (a, 2)]⟩ := by
  simp [tryCandidates, hA, hB, hC, h0, h1, h2]

/-- Claim C1: for a task whose candidate list is `[A, B, C]` in priority
order, if on an attempt `A`'s and `B`'s clients return failure (or empty
text) and `C` returns non-empty text `t` — all earlier attempts having fully
failed — then `_call_api_for_task` returns `t` from within that attempt,
issues no invocation after it, and increments the usage count of `C`'s
provider by exactly 1 while `A`'s and `B`'s counts stay unchanged. -/
theorem c1_failover_first_success (cfg : CallConfig) (A B C : ApiInfo) (k : Nat)
    (t : String) (stats : Stats)
    (hcand : cfg.candidates = [A, B, C]) (hk : k < 3)
    (hA : cfg.clientOk A = true) (hB : cfg.clientOk B = true) (hC : cfg.clientOk C = true)
    (hprev : ∀ a, a < k →
      pyTruthy (cfg.response a 0) = false ∧ pyTruthy (cfg.response a 1) = false ∧
      pyTruthy (cfg.response a 2) = false)
    (hfa : pyTruthy (cfg.response k 0) = false)
    (hfb : pyTruthy (cfg.response k 1) = false)
    (hsc : cfg.response k 2 = some t) (ht : t ≠ "")
    (hAC : A.provider ≠ C.provider) (hBC : B.provider ≠ C.provider) :
    (callApiForTask (some cfg) 3 stats).result = some t ∧
    (callApiForTask (some cfg) 3 stats).stats C.provider = stats C.provider + 1 ∧
    (callApiForTask (some cfg) 3 stats).stats A.provider = stats A.provider ∧
    (callApiForTask (some cfg) 3 stats).stats B.provider = stats B.provider ∧
    (∀ e ∈ (callApiForTask (some cfg) 3 stats).calls, e.1 ≤ k) := by
  have hrange : List.range 3 = [0, 1, 2] := by rfl
  have key : (runAttempts cfg 3 (List.range 3)).result = some t ∧
      (runAttempts cfg 3 (List.range 3)).winner = some C.provider ∧
      (∀ e ∈ (runAttempts cfg 3 (List.range 3)).calls, e.1 ≤ k) := by
    rw [hrange]
    interval_cases k
    · have hvic := tryCandidates_abc cfg A B C 0 t hA hB hC hfa hfb hsc ht
      rw [← hcand] at hvic
      refine ⟨?_, ?_, ?_⟩ <;> simp [runAttempts, hvic]
    · obtain ⟨p0, p1, p2⟩ := hprev 0 (by norm_num)
      have hf0 := tryCandidates_abc_fail cfg A B C 0 hA hB hC p0 p1 p2
      have hvic := tryCandidates_abc cfg A B C 1 t hA hB hC hfa hfb hsc ht
      rw [← hcand] at hf0 hvic
      refine ⟨?_, ?_, ?_⟩ <;> simp [runAttempts, hf0, hvic]
    · obtain ⟨p0, p1, p2⟩ := hprev 0 (by norm_num)
      obtain ⟨q0, q1, q2⟩ := hprev 1 (by norm_num)
      have hf0 := tryCandidates_abc_fail cfg A B C 0 hA hB hC p0 p1 p2
      have hf1 := tryCandidates_abc_fail cfg A B C 1 hA hB hC q0 q1 q2
      have hvic := tryCandidates_abc cfg A B C 2 t hA hB hC hfa hfb hsc ht
      rw [← hcand] at hf0 hf1 hvic
      refine ⟨?_, ?_, ?_⟩ <;> simp [runAttempts, hf0, hf1, hvic]
  obtain ⟨hres, hwin, hcalls⟩ := key
  refine ⟨?_, ?_, ?_, ?_, ?_⟩
  · simpa [callApiForTask] using hres
  · simp only [callApiForTask]
    rw [hwin]
    simpa [applyWinner] using incr_self stats C.provider
  · simp only [callApiForTask]
    rw [hwin]
    simpa [applyWinner] using incr_other stats C.provider A.provider hAC
  · simp only [callApiForTask]
    rw [hwin]
    simpa [applyWinner] using incr_other stats C.provider B.provider hBC
  · simpa [callApiForTask] using hcalls

/-- Witness for C1: concrete three-candidate configuration where the first
two candidates fail on attempts 0 and 1 and the third succeeds on attempt 1. -/
theorem c1_failover_first_success_witness :
    (callApiForTask
      (some ⟨[⟨"alpha", "m"⟩, ⟨"beta", "m"⟩, ⟨"gamma", "m"⟩], fun _ => true,
        fun a i => if a = 1 ∧ i = 2 then some "ok" else none⟩) 3 (fun _ => 0)).result =
      some "ok" ∧
    (callApiForTask
      (some ⟨[⟨"alpha", "m"⟩, ⟨"beta", "m"⟩, ⟨"gamma", "m"⟩], fun _ => true,
        fun a i => if a = 1 ∧ i = 2 then some "ok" else none⟩) 3 (fun _ => 0)).stats "gamma" =
      0 + 1 ∧
    (callApiForTask
      (some ⟨[⟨"alpha", "m"⟩, ⟨"beta", "m"⟩, ⟨"gamma", "m"⟩], fun _ => true,
        fun a i => if a = 1 ∧ i = 2 then some "ok" else none⟩) 3 (fun _ => 0)).stats "alpha" =
      0 := by
  obtain ⟨h1, h2, h3, _, _⟩ := c1_failover_first_success
    ⟨[⟨"alpha", "m"⟩, ⟨"beta", "m"⟩, ⟨"gamma", "m"⟩], fun _ => true,
      fun a i => if a = 1 ∧ i = 2 then some "ok" else none⟩
    ⟨"alpha", "m"⟩ ⟨"beta", "m"⟩ ⟨"gamma", "m"⟩ 1 "ok" (fun _ => 0)
    rfl (by norm_num) rfl rfl rfl (by decide) (by decide) (by decide) (by decide)
    (by decide) (by decide) (by decide)
  exact ⟨h1, h2, h3⟩

/-- Claim C2: when every configured candidate fails on every attempt with
`max_retries = 3`, `_call_api_for_task` sleeps `5 * (attempt + 1)` seconds
after each fully-failed attempt except the last (5s then 10s), returns
`None`, and increments the `"failed"` usage counter exactly once for the
whole invocation. -/
theorem c2_retry_backoff (cfg : CallConfig) (stats : Stats)
    (hfail : ∀ a, a < 3 → ∀ i, i < cfg.candidates.length →
      cfg.clientOk (cfg.candidates.getD i default) = true →
      pyTruthy (cfg.response a i) = false) :
    (callApiForTask (some cfg) 3 stats).result = none ∧
    (callApiForTask (some cfg) 3 stats).sleeps = [5, 10] ∧
    (callApiForTask (some cfg) 3 stats).stats "failed" = stats "failed" + 1 ∧
    (∀ p, p ≠ "failed" → (callApiForTask (some cfg) 3 stats).stats p = stats p) := by
  have h0 := tryCandidates_all_fail cfg 0 cfg.candidates 0
    (by intro i hi hok; simpa using hfail 0 (by norm_num) i hi hok)
  have h1 := tryCandidates_all_fail cfg 1 cfg.candidates 0
    (by intro i hi hok; simpa using hfail 1 (by norm_num) i hi hok)
  have h2 := tryCandidates_all_fail cfg 2 cfg.candidates 0
    (by intro i hi hok; simpa using hfail 2 (by norm_num) i hi hok)
  obtain ⟨r0, w0, -⟩ := h0
  obtain ⟨r1, w1, -⟩ := h1
  obtain ⟨r2, w2, -⟩ := h2
  have hrange : List.range 3 = [0, 1, 2] := by rfl
  have key : (runAttempts cfg 3 (List.range 3)).result = none ∧
      (runAttempts cfg 3 (List.range 3)).winner = none ∧
      (runAttempts cfg 3 (List.range 3)).sleeps = [5, 10] := by
    rw [hrange]
    refine ⟨?_, ?_, ?_⟩ <;> simp [runAttempts, r0, r1, r2, w0, w1, w2]
  obtain ⟨hres, hwin, hsl⟩ := key
  refine ⟨?_, ?_, ?_, ?_⟩
  · simpa [callApiForTask] using hres
  · simpa [callApiForTask] using hsl
  · simp only [callApiForTask]
    rw [hwin]
    simpa [applyWinner] using incr_self stats "failed"
  · intro p hp
    simp only [callApiForTask]
    rw [hwin]
    simpa [applyWinner] using incr_other stats "failed" p hp

/-- Witness for C2: a single always-failing candidate. -/
theorem c2_retry_backoff_witness :
    (callApiForTask (some ⟨[⟨"alpha", "m"⟩], fun _ => true, fun _ _ => none⟩) 3
      (fun _ => 0)).result = none ∧
    (callApiForTask (some ⟨[⟨"alpha", "m"⟩], fun _ => true, fun _ _ => none⟩) 3
      (fun _ => 0)).sleeps = [5, 10] ∧
    (callApiForTask (some ⟨[⟨"alpha", "m"⟩], fun _ => true, fun _ _ => none⟩) 3
      (fun _ => 0)).stats "failed" = 0 + 1 := by
  obtain ⟨h1, h2, h3, -⟩ := c2_retry_backoff
    ⟨[⟨"alpha", "m"⟩], fun _ => true, fun _ _ => none⟩ (fun _ => 0)
    (by intro a ha i hi hok; rfl)
  exact ⟨h1, h2, h3⟩

/-- The characters replaced by `_` in `_sanitize_filename`
(regex `[<>:"/\\|?*]`, line 90). -/
def illegalFilenameChars : List Char := ['<', '>', ':', '"', '/', '\\', '|', '?', '*']

/-- ASCII whitespace matched by Python's `\s` and stripped by `str.strip()`
(the source only ever feeds it model-generated text; the unicode extras of
Python's character classes are not modelled). -/
def isPySpace (c : Char) : Bool := [' ', '\t', '\n', '\r', '\x0b', '\x0c'].contains c

/-- `re.sub(r'\s+', ' ', s)`: every maximal whitespace run becomes one space.
The boolean argument records whether the previous character was whitespace. -/
def collapseWsAux : Bool → List Char → List Char
  | _, [] => []
  | prevSpace, c :: rest =>
    if isPySpace c then
      if prevSpace then collapseWsAux true rest
      else ' ' :: collapseWsAux true rest
    else c :: collapseWsAux false rest

/-- `str.strip()` on a character list. -/
def stripChars (s : List Char) : List Char :=
  ((s.dropWhile isPySpace).reverse.dropWhile isPySpace).reverse

/-- `str.rstrip()` on a character list. -/
def rstripChars (s : List Char) : List Char :=
  (s.reverse.dropWhile isPySpace).reverse

/-- `str.strip()` on a `String`. -/
def pyStrip (s : String) : String := ⟨stripChars s.data⟩

/-- `_sanitize_filename(filename, max_length)` (lines 78-101): replace
illegal filesystem characters by `_`, collapse whitespace runs and strip,
cap the length (right-stripping the truncation), and default to
`"untitled"` when the result is empty.  Call sites use `max_length = 100`. -/
def sanitizeFilename (s : String) (maxLength : Nat) : String :=
  let a := s.data.map (fun c => if illegalFilenameChars.contains c then '_' else c)
  let b := stripChars (collapseWsAux false a)
  let c := if b.length > maxLength then rstripChars (b.take maxLength) else b
  if c.isEmpty then "untitled" else ⟨c⟩

/-- `str.split('\n')` on a character list (always returns at least one
piece, like Python's `split`). -/
def splitNl : List Char → List (List Char)
  | [] => [[]]
  | c :: rest =>
    match splitNl rest with
    | [] => [[]]
    | l :: ls => if c = '\n' then [] :: l :: ls else (c :: l) :: ls

/-- Python's `needle in hay` substring test. -/
def hasSubSeg (needle hay : List Char) : Bool :=
  hay.tails.any (fun t => needle.isPrefixOf t)

/-- The three-character label `"标题："` looked for by `_generate_title`. -/
def labelChars : List Char := "标题：".data

/-- The `for line in lines` loop of `_generate_title` (lines 330-338): the
first stripped line that starts with the label and has non-empty text after
it (`line[3:].strip()`) is returned. -/
def extractLabeled : List (List Char) → Option (List Char)
  | [] => none
  | l :: ls =>
    let line := stripChars l
    if labelChars.isPrefixOf line then
      let ex := stripChars (line.drop 3)
      if ex.isEmpty then extractLabeled ls else some ex
    else extractLabeled ls

/-- The post-processing `_generate_title` applies to a truthy raw response
(lines 324-349): strip; if the label occurs, try to extract the first
labelled title; otherwise (or when no labelled line qualifies), if the
stripped text is longer than 50 characters return its first non-empty
stripped line; otherwise return the stripped text itself. -/
def postTitle (raw : String) : String :=
  let t := stripChars raw.data
  let viaLabel : Option (List Char) :=
    if hasSubSeg labelChars t then extractLabeled (splitNl t) else none
  match viaLabel with
  | some e => ⟨e⟩
  | none =>
    if t.length > 50 then
      match splitNl t with
      | [] => ⟨t⟩
      | l :: _ =>
        let fl := stripChars l
        if fl.isEmpty then ⟨t⟩ else ⟨fl⟩
    else ⟨t⟩

/-- The output directory's state: the set of per-record folders and the files
inside them, as (folder, filename, content) entries.  Only this slice of the
filesystem is touched by `process_single_tweet`. -/
structure FS where
  folders : List String
  files : List (String × String × String)
deriving DecidableEq

/-- `folder_path.exists()` for a record folder. -/
def folderExistsFS (fs : FS) (folder : String) : Bool := fs.folders.contains folder

/-- `(folder_path / file).exists()`. -/
def fileExistsFS (fs : FS) (folder name : String) : Bool :=
  fs.files.any (fun e => e.1 == folder && e.2.1 == name)

/-- `_is_already_processed` (lines 442-453): all of `generated.svg`,
`body.txt`, `title.txt` exist in the folder. -/
def isAlreadyProcessed (fs : FS) (folder : String) : Bool :=
  fileExistsFS fs folder "generated.svg" && fileExistsFS fs folder "body.txt" &&
    fileExistsFS fs folder "title.txt"

/-- `path.write_text(content)`: overwrite the entry for (folder, name). -/
def writeFileFS (l : List (String × String × String)) (folder name content : String) :
    List (String × String × String) :=
  (folder, name, content) :: l.filter (fun e => !(e.1 == folder && e.2.1 == name))

/-- The `while folder_path.exists()` loop of `_get_unique_folder_name`
(lines 467-470), given fuel.  `current` is the candidate checked next and
`counter` the next numeric suffix. -/
def uniqueLoop (fs : FS) (base : String) : String → Nat → Nat → String
  | current, _, 0 => current
  | current, counter, fuel + 1 =>
    if folderExistsFS fs current then
      uniqueLoop fs base (base ++ "_" ++ toString counter) (counter + 1) fuel
    else current

/-- `_get_unique_folder_name(base_name)` (lines 455-471): sanitize, then
append `_1`, `_2`, … while the candidate folder exists.  The fuel
`fs.folders.length + 1` is enough for the loop to find a free name, since
the probed names are pairwise distinct. -/
def uniqueFolderName (fs : FS) (baseName : String) : String :=
  let name := sanitizeFilename baseName 100
  uniqueLoop fs name name 1 (fs.folders.length + 1)

/-- Environment of `process_single_tweet`: one `CallConfig` per logical task
(`none` when the task is not configured) and the SVG cleanup transform
`_clean_svg_text` — a pure string transform the spec places out of scope,
carried as an opaque parameter. -/
structure ProcEnv where
  titleTask : Option CallConfig
  bodyTask : Option CallConfig
  svgTask : Option CallConfig
  cleanSvg : String → String

/-- The retry/failover run a task's `_call_api_for_task` performs (response,
winner, invocations, sleeps), before statistics are applied. -/
def runTask (tc : Option CallConfig) : TaskRunRes :=
  match tc with
  | none => ⟨none, none, [], []⟩
  | some cfg => runAttempts cfg 3 (List.range 3)

/-- The statistics update a task's `_call_api_for_task` performs. -/
def taskStats (tc : Option CallConfig) (stats : Stats) : Stats :=
  match tc with
  | none => stats
  | some cfg => applyWinner stats (runAttempts cfg 3 (List.range 3)).winner

/-- `runTask`/`taskStats` decompose `callApiForTask` at its default
`max_retries = 3`: same response, same statistics, same invocations. -/
theorem callApiForTask_decomp (tc : Option CallConfig) (stats : Stats) :
    callApiForTask tc 3 stats =
      ⟨(runTask tc).result, taskStats tc stats, (runTask tc).calls, (runTask tc).sleeps⟩ := by
  cases tc <;> rfl

/-- The text `_generate_title` returns (lines 312-349): `None` when the API
result is falsy, else the post-processed title. -/
def titleText (tc : Option CallConfig) : Option String :=
  match (runTask tc).result with
  | none => none
  | some raw => if raw = "" then none else some (postTitle raw)

/-- The text `_generate_body` returns (lines 351-360): `body.strip()` when
the API result is truthy, else `None`. -/
def bodyText (tc : Option CallConfig) : Option String :=
  match (runTask tc).result with
  | none => none
  | some raw => if raw = "" then none else some (pyStrip raw)

/-- The text `_generate_svg` returns (lines 292-310): the cleaned SVG when
the API result is truthy, else `None`. -/
def svgText (clean : String → String) (tc : Option CallConfig) : Option String :=
  match (runTask tc).result with
  | none => none
  | some raw => if raw = "" then none else some (clean raw)

/-- The provider invocations a task run issues, tagged with the task name. -/
def taggedCalls (name : String) (tc : Option CallConfig) : List (String × Nat × Nat) :=
  (runTask tc).calls.map (fun c => (name, c))

/-- `_save_files` (lines 427-440): create the folder, then write
`generated.svg` (re-cleaned through `_clean_svg_text`), `title.txt` and
`body.txt`.  Filesystem write errors are outside the model. -/
def saveFiles (clean : String → String) (fs : FS) (folder svgContent title body : String) : FS :=
  { folders := fs.folders.insert folder
    files := writeFileFS
      (writeFileFS (writeFileFS fs.files folder "generated.svg" (clean svgContent))
        folder "title.txt" title)
      folder "body.txt" body }

/-- Observable outcome of `process_single_tweet`: the returned boolean, the
resulting filesystem, the usage statistics, and every provider invocation
issued, tagged with its task. -/
structure ProcOut where
  ok : Bool
  fs : FS
  stats : Stats
  calls : List (String × Nat × Nat)

/-- `process_single_tweet(tweet_data, index)` (lines 473-520): reject empty
text; generate the title (a provider call) and fail if falsy; if the folder
named by the sanitized title already holds all three artifacts, succeed with
no further work; otherwise generate body then SVG (either failing fails the
record with nothing written); finally resolve a unique folder name and save
the three artifacts. -/
def processSingleTweet (env : ProcEnv) (fullText : String) (fs : FS) (stats : Stats) : ProcOut :=
  if fullText = "" then ⟨false, fs, stats, []⟩
  else
    let stats1 := taskStats env.titleTask stats
    let calls1 := taggedCalls "title" env.titleTask
    match titleText env.titleTask with
    | none => ⟨false, fs, stats1, calls1⟩
    | some title =>
      if title = "" then ⟨false, fs, stats1, calls1⟩
      else
        if isAlreadyProcessed fs (sanitizeFilename title 100) then ⟨true, fs, stats1, calls1⟩
        else
          let stats2 := taskStats env.bodyTask stats1
          let calls2 := calls1 ++ taggedCalls "body" env.bodyTask
          match bodyText env.bodyTask with
          | none => ⟨false, fs, stats2, calls2⟩
          | some body =>
            if body = "" then ⟨false, fs, stats2, calls2⟩
            else
              let stats3 := taskStats env.svgTask stats2
              let calls3 := calls2 ++ taggedCalls "svg" env.svgTask
              match svgText env.cleanSvg env.svgTask with
              | none => ⟨false, fs, stats3, calls3⟩
              | some svgContent =>
                if svgContent = "" then ⟨false, fs, stats3, calls3⟩
                else
                  ⟨true, saveFiles env.cleanSvg fs (uniqueFolderName fs title) svgContent title body,
                    stats3, calls3⟩

/-- A string is never equal to itself extended by a non-empty suffix. -/
theorem ne_append_ne_empty (s t : String) (h : t ≠ "") : s ≠ s ++ t := by
  intro he
  have hl := congrArg String.length he
  rw [String.length_append] at hl
  have ht0 : t.length = 0 := by omega
  apply h
  apply String.ext
  rw [String.length] at ht0
  have hd : t.data = [] := List.length_eq_zero.mp ht0
  simp [hd]

/-- Every invocation recorded for a task run carries that task's tag. -/
theorem taggedCalls_fst (nm : String) (tc : Option CallConfig) :
    ∀ c ∈ taggedCalls nm tc, c.1 = nm := by
  intro c hc
  obtain ⟨a, -, ha⟩ := List.mem_map.mp hc
  rw [← ha]

/-- Overwriting a file in one folder does not disturb entries of another. -/
theorem mem_writeFileFS_ne {l : List (String × String × String)}
    {folder nm content g f c : String} (hg : g ≠ folder) :
    ((g, f, c) ∈ writeFileFS l folder nm content) ↔ (g, f, c) ∈ l := by
  unfold writeFileFS
  constructor
  · intro h
    rcases List.mem_cons.mp h with h | h
    · exact absurd (congrArg Prod.fst h) hg
    · exact (List.mem_filter.mp h).1
  · intro h
    apply List.mem_cons.mpr
    right
    apply List.mem_filter.mpr
    exact ⟨h, by simp [hg]⟩

/-- When the sanitized name's folder exists but `name_1` does not, the
`while` loop of `_get_unique_folder_name` settles on `name_1`. -/
theorem uniqueFolderName_suffix_one (fs : FS) (baseName : String)
    (hex : folderExistsFS fs (sanitizeFilename baseName 100) = true)
    (hfree : folderExistsFS fs (sanitizeFilename baseName 100 ++ "_1") = false) :
    uniqueFolderName fs baseName = sanitizeFilename baseName 100 ++ "_1" := by
  obtain ⟨x, l, hl⟩ : ∃ x l, fs.folders = x :: l := by
    cases hfl : fs.folders with
    | nil =>
      rw [folderExistsFS, hfl] at hex
      simp [List.contains] at hex
    | cons x l => exact ⟨x, l, rfl⟩
  have h1 : sanitizeFilename baseName 100 ++ "_" ++ toString (1 : Nat) =
      sanitizeFilename baseName 100 ++ "_1" := by
    have hts : toString (1 : Nat) = "1" := rfl
    rw [hts]
    apply String.ext
    simp [String.data_append]
  unfold uniqueFolderName
  rw [hl]
  simp only [List.length_cons]
  simp only [uniqueLoop, hex, if_true, h1, hfree, if_false]
  simp

/-- Claim C3 (amended): when title generation succeeds and the folder named
by the sanitized generated title already contains all three artifact files,
`process_single_tweet` returns success, leaves the filesystem untouched, and
issues no provider call beyond the title task's own (which necessarily
precedes the check, since the folder name derives from the generated title). -/
theorem c3_already_processed (env : ProcEnv) (fullText : String) (fs : FS)
    (stats : Stats) (t : String)
    (hft : fullText ≠ "") (htitle : titleText env.titleTask = some t) (ht : t ≠ "")
    (hdone : isAlreadyProcessed fs (sanitizeFilename t 100) = true) :
    (processSingleTweet env fullText fs stats).ok = true ∧
    (processSingleTweet env fullText fs stats).fs = fs ∧
    (processSingleTweet env fullText fs stats).calls = taggedCalls "title" env.titleTask ∧
    (∀ c ∈ (processSingleTweet env fullText fs stats).calls, c.1 = "title") := by
  have hred : processSingleTweet env fullText fs stats =
      ⟨true, fs, taskStats env.titleTask stats, taggedCalls "title" env.titleTask⟩ := by
    simp [processSingleTweet, hft, htitle, ht, hdone]
  rw [hred]
  exact ⟨rfl, rfl, rfl, taggedCalls_fst "title" env.titleTask⟩

/-- A one-candidate configuration that always answers `r`. -/
def constCfg (p : String) (r : Option String) : CallConfig :=
  ⟨[⟨p, "m"⟩], fun _ => true, fun _ _ => r⟩

/-- Concrete environment for C3: every task answers immediately; the title
response is the single character `T`. -/
def c3env : ProcEnv :=
  ⟨some (constCfg "alpha" (some "T")), some (constCfg "alpha" (some "B")),
    some (constCfg "alpha" (some "S")), id⟩

/-- A folder `T` already holding the full artifact set. -/
def c3fs : FS :=
  ⟨["T"], [("T", "generated.svg", "s"), ("T", "body.txt", "b"), ("T", "title.txt", "t")]⟩

/-- Witness for C3 (amended) at the concrete environment. -/
theorem c3_already_processed_witness :
    (processSingleTweet c3env "x" c3fs (fun _ => 0)).ok = true ∧
    (processSingleTweet c3env "x" c3fs (fun _ => 0)).fs = c3fs := by
  obtain ⟨h1, h2, -, -⟩ := c3_already_processed c3env "x" c3fs (fun _ => 0) "T"
    (by decide) (by decide) (by decide) (by decide)
  exact ⟨h1, h2⟩

/-- Counterexample to claim C3 as stated: on a record whose sanitized
generated title names a folder that already holds all three artifacts, the
code does return success with the filesystem untouched, but a provider call
(the title generation that produced the folder name) has been issued — the
invocation list is `[("title", 0, 0)]`, not empty. -/
theorem c3_counterexample :
    (processSingleTweet c3env "x" c3fs (fun _ => 0)).ok = true ∧
    (processSingleTweet c3env "x" c3fs (fun _ => 0)).fs = c3fs ∧
    (processSingleTweet c3env "x" c3fs (fun _ => 0)).calls = [("title", 0, 0)] := by
  refine ⟨?_, ?_, ?_⟩ <;> decide

/-- Claim C8: after a successful title generation whose folder is not
already complete, a falsy body generation or a falsy SVG generation makes
`process_single_tweet` return failure with no artifact file written — the
filesystem is exactly what it was. -/
theorem c8_partial_atomicity (env : ProcEnv) (fullText : String) (fs : FS)
    (stats : Stats) (t : String)
    (hft : fullText ≠ "") (htitle : titleText env.titleTask = some t) (ht : t ≠ "")
    (hnot : isAlreadyProcessed fs (sanitizeFilename t 100) = false)
    (hfail : pyTruthy (bodyText env.bodyTask) = false ∨
      pyTruthy (svgText env.cleanSvg env.svgTask) = false) :
    (processSingleTweet env fullText fs stats).ok = false ∧
    (processSingleTweet env fullText fs stats).fs = fs := by
  rcases hfail with hf | hf
  · rcases hb : bodyText env.bodyTask with - | b
    · constructor <;> simp [processSingleTweet, hft, htitle, ht, hnot, hb]
    · have hb0 : b = "" := by
        rw [hb] at hf
        simpa [pyTruthy] using hf
      subst hb0
      constructor <;> simp [processSingleTweet, hft, htitle, ht, hnot, hb]
  · rcases hb : bodyText env.bodyTask with - | b
    · constructor <;> simp [processSingleTweet, hft, htitle, ht, hnot, hb]
    · by_cases hb0 : b = ""
      · subst hb0
        constructor <;> simp [processSingleTweet, hft, htitle, ht, hnot, hb]
      · rcases hs : svgText env.cleanSvg env.svgTask with - | v
        · constructor <;> simp [processSingleTweet, hft, htitle, ht, hnot, hb, hb0, hs]
        · have hv : v = "" := by
            rw [hs] at hf
            simpa [pyTruthy] using hf
          subst hv
          constructor <;> simp [processSingleTweet, hft, htitle, ht, hnot, hb, hb0, hs]

/-- Concrete environment for C8: title succeeds with `T`, body always
fails, SVG would succeed. -/
def c8env : ProcEnv :=
  ⟨some (constCfg "alpha" (some "T")), some (constCfg "alpha" none),
    some (constCfg "alpha" (some "S")), id⟩

/-- Witness for C8: body generation fails after a successful title; nothing
is written. -/
theorem c8_partial_atomicity_witness :
    (processSingleTweet c8env "x" ⟨[], []⟩ (fun _ => 0)).ok = false ∧
    (processSingleTweet c8env "x" ⟨[], []⟩ (fun _ => 0)).fs = ⟨[], []⟩ := by
  exact c8_partial_atomicity c8env "x" ⟨[], []⟩ (fun _ => 0) "T"
    (by decide) (by decide) (by decide) (by decide) (Or.inl (by decide))

/-- Claim C4 (amended): when two records sanitize to the same folder name,
the second record never disturbs the first's artifacts.  If at the time the
second is processed the shared folder exists but is incomplete (a partial
earlier attempt) and `name_1` is unused, the second record's artifacts go to
the distinct folder `name_1` and every file entry of the original folder is
preserved.  (When the first record's folder is already complete, the second
record is instead skipped as already processed — see the counterexample.) -/
theorem c4_collision_incomplete (env : ProcEnv) (fullText : String) (fs : FS)
    (stats : Stats) (t b v : String)
    (hft : fullText ≠ "")
    (htitle : titleText env.titleTask = some t) (ht : t ≠ "")
    (hnot : isAlreadyProcessed fs (sanitizeFilename t 100) = false)
    (hex : folderExistsFS fs (sanitizeFilename t 100) = true)
    (hfree : folderExistsFS fs (sanitizeFilename t 100 ++ "_1") = false)
    (hbody : bodyText env.bodyTask = some b) (hb : b ≠ "")
    (hsvg : svgText env.cleanSvg env.svgTask = some v) (hv : v ≠ "") :
    (processSingleTweet env fullText fs stats).ok = true ∧
    folderExistsFS (processSingleTweet env fullText fs stats).fs
      (sanitizeFilename t 100 ++ "_1") = true ∧
    (∀ f c, ((sanitizeFilename t 100, f, c) ∈ (processSingleTweet env fullText fs stats).fs.files ↔
      (sanitizeFilename t 100, f, c) ∈ fs.files)) := by
  have hname := uniqueFolderName_suffix_one fs t hex hfree
  have hne : sanitizeFilename t 100 ≠ sanitizeFilename t 100 ++ "_1" :=
    ne_append_ne_empty _ "_1" (by decide)
  have hred : processSingleTweet env fullText fs stats =
      ⟨true, saveFiles env.cleanSvg fs (sanitizeFilename t 100 ++ "_1") v t b,
        taskStats env.svgTask (taskStats env.bodyTask (taskStats env.titleTask stats)),
        taggedCalls "title" env.titleTask ++ taggedCalls "body" env.bodyTask ++
          taggedCalls "svg" env.svgTask⟩ := by
    simp [processSingleTweet, hft, htitle, ht, hnot, hbody, hb, hsvg, hv, hname]
  rw [hred]
  refine ⟨rfl, ?_, ?_⟩
  · simp [saveFiles, folderExistsFS]
  · intro f c
    show (sanitizeFilename t 100, f, c) ∈ (saveFiles env.cleanSvg fs
      (sanitizeFilename t 100 ++ "_1") v t b).files ↔ _
    unfold saveFiles
    rw [mem_writeFileFS_ne hne, mem_writeFileFS_ne hne, mem_writeFileFS_ne hne]

/-- Concrete environment for C4: title answers `T`, body `B`, SVG `S`. -/
def c4env : ProcEnv :=
  ⟨some (constCfg "alpha" (some "T")), some (constCfg "alpha" (some "B")),
    some (constCfg "alpha" (some "S")), id⟩

/-- A folder `T` from a partial earlier attempt: it exists but holds only
`title.txt`, not the full artifact set. -/
def c4fsPartial : FS := ⟨["T"], [("T", "title.txt", "t")]⟩

/-- Witness for C4 (amended): with folder `T` present but incomplete, the
second record lands in `T_1`. -/
theorem c4_collision_incomplete_witness :
    (processSingleTweet c4env "x" c4fsPartial (fun _ => 0)).ok = true ∧
    folderExistsFS (processSingleTweet c4env "x" c4fsPartial (fun _ => 0)).fs
      (sanitizeFilename "T" 100 ++ "_1") = true := by
  obtain ⟨h1, h2, -⟩ := c4_collision_incomplete c4env "x" c4fsPartial (fun _ => 0) "T" "B" "S"
    (by decide) (by decide) (by decide) (by decide) (by decide) (by decide)
    (by decide) (by decide) (by decide) (by decide)
  exact ⟨h1, h2⟩

/-- The filesystem after the first record of the C4 scenario completes from
an empty output directory: folder `T` with all three artifacts. -/
def c4fsDone : FS :=
  ⟨["T"], [("T", "body.txt", "B"), ("T", "title.txt", "T"), ("T", "generated.svg", "S")]⟩

/-- Counterexample to claim C4 as stated: with the first record fully
completed (folder `T` holds all three artifacts), processing a second record
whose title sanitizes to the same name does not create a second folder at
all — it is treated as already processed, the filesystem is unchanged, and
no folder `T_1` exists.  The claimed "two distinct output folders, the
second suffixed `_1`" is false in exactly the scenario the claim describes. -/
theorem c4_counterexample :
    (processSingleTweet c4env "x" ⟨[], []⟩ (fun _ => 0)).fs = c4fsDone ∧
    (processSingleTweet c4env "x" c4fsDone (fun _ => 0)).ok = true ∧
    (processSingleTweet c4env "x" c4fsDone (fun _ => 0)).fs = c4fsDone ∧
    folderExistsFS c4fsDone ("T" ++ "_1") = false := by
  refine ⟨?_, ?_, ?_, ?_⟩ <;> decide

/-- The checkpoint document `_save_progress` writes (lines 195-216).  The
wall-clock `last_update` field is outside the model. -/
structure ProgressRecord where
  last_processed_index : Int
  total_processed : Int
  total_success : Nat
  total_failed : Nat
deriving DecidableEq

/-- `_save_progress(last_index, success_count, failed_count)`: the stored
`total_processed` is computed as `last_index + 1` (line 207). -/
def saveProgress (lastIndex : Int) (successCount failedCount : Nat) : ProgressRecord :=
  ⟨lastIndex, lastIndex + 1, successCount, failedCount⟩

/-- `get_auto_start_index` (lines 261-290) on a readable dataset of
`totalCount` records: return `totalCount` when
`last_index >= total_count - 1`, else `last_index + 1`.  `lastIndex` is the
persisted `last_processed_index` (defaulting to -1). -/
def getAutoStartIndex (lastIndex : Int) (totalCount : Nat) : Int :=
  if lastIndex ≥ (totalCount : Int) - 1 then totalCount else lastIndex + 1

/-- Claim C9: every checkpoint written by `_save_progress` has
`total_processed = last_processed_index + 1`; the field is derived from the
index argument alone, independent of the success and failure counts. -/
theorem c9_total_processed_invariant (i : Int) (s f s2 f2 : Nat) :
    (saveProgress i s f).total_processed = (saveProgress i s f).last_processed_index + 1 ∧
    (saveProgress i s f).total_processed = (saveProgress i s2 f2).total_processed :=
  ⟨rfl, rfl⟩

/-- Claim C7: the resume-index computation returns `last + 1` when
`last < total - 1`, and `total` (nothing left to do) when
`last >= total - 1`. -/
theorem c7_resume_index (lastIndex : Int) (totalCount : Nat) :
    (lastIndex < (totalCount : Int) - 1 →
      getAutoStartIndex lastIndex totalCount = lastIndex + 1) ∧
    (lastIndex ≥ (totalCount : Int) - 1 →
      getAutoStartIndex lastIndex totalCount = totalCount) := by
  constructor
  · intro h
    rw [getAutoStartIndex, if_neg (not_le.mpr h)]
  · intro h
    rw [getAutoStartIndex, if_pos h]

/-- Witness for C7: checkpoint after index 4 of 10 records resumes at 5; a
fully-processed dataset (index 9 of 10) resumes at 10. -/
theorem c7_resume_index_witness :
    getAutoStartIndex 4 10 = 5 ∧ getAutoStartIndex 9 10 = 10 :=
  ⟨(c7_resume_index 4 10).1 (by decide), (c7_resume_index 9 10).2 (by decide)⟩

/-- Python truthiness of the `max_count: Optional[int]` argument: `None`
and `0` are both falsy. -/
def pyTruthyNat : Option Nat → Bool
  | none => false
  | some n => n ≠ 0

/-- The window bound of `process_dataset` (line 556):
`end_index = min(start_index + max_count, total_count) if max_count else
total_count`. -/
def computeEndIndex (startIndex : Nat) (maxCount : Option Nat) (totalCount : Nat) : Nat :=
  if pyTruthyNat maxCount then min (startIndex + maxCount.getD 0) totalCount else totalCount

/-- The slice `data[start_index:end_index]` (line 557). -/
def processWindow (data : List String) (startIndex : Nat) (maxCount : Option Nat) :
    List String :=
  (data.take (computeEndIndex startIndex maxCount data.length)).drop startIndex

/-- Claim C10: `max_count = 0` is tested for truthiness, so it behaves like
"no limit": the end index is the dataset length, the same as passing
`None`, and the processed window runs to the end of the dataset. -/
theorem c10_zero_max_count_no_limit (startIndex totalCount : Nat) (data : List String) :
    computeEndIndex startIndex (some 0) totalCount = totalCount ∧
    computeEndIndex startIndex (some 0) totalCount =
      computeEndIndex startIndex none totalCount ∧
    processWindow data startIndex (some 0) = data.drop startIndex := by
  refine ⟨rfl, rfl, ?_⟩
  simp [processWindow, computeEndIndex, pyTruthyNat, List.take_length]

/-- Outcome of one `process_single_tweet` call as seen by the surrounding
loops: normal `true`/`false` return, a `KeyboardInterrupt` raised during the
record, or another exception escaping it. -/
inductive StepRes
  | ok
  | fail
  | interrupt
  | err
deriving DecidableEq

/-- The record loop of `_process_batch` (lines 237-259): successes and
failures are counted; an exception counts as a failure and the loop goes on;
a `KeyboardInterrupt` merely breaks out of this batch's loop — it is neither
re-raised nor reported to the caller.  Returns (batch_success, batch_failed,
indices at which processing started).  Buffer sleeps are not modelled. -/
def processBatchRun : List StepRes → Nat → Nat × Nat × List Nat
  | [], _ => (0, 0, [])
  | o :: rest, idx =>
    match o with
    | .ok =>
      let r := processBatchRun rest (idx + 1)
      (r.1 + 1, r.2.1, idx :: r.2.2)
    | .fail =>
      let r := processBatchRun rest (idx + 1)
      (r.1, r.2.1 + 1, idx :: r.2.2)
    | .interrupt => (0, 0, [idx])
    | .err =>
      let r := processBatchRun rest (idx + 1)
      (r.1, r.2.1 + 1, idx :: r.2.2)

/-- Consecutive size-`n` chunks, with fuel (structurally recursive mirror of
`range(0, len(process_data), batch_size)`). -/
def chunksOfAux {α : Type} (n : Nat) : Nat → List α → List (List α)
  | _, [] => []
  | 0, _ :: _ => []
  | fuel + 1, a :: rest => ((a :: rest).take n) :: chunksOfAux n fuel ((a :: rest).drop n)

/-- The chunking of `process_dataset`'s batched branch (line 573).  A fuel of
`l.length` always suffices for positive `n`. -/
def chunksOf {α : Type} (n : Nat) (l : List α) : List (List α) :=
  if n = 0 then [] else chunksOfAux n l.length l

/-- One checkpoint write: the `(last_index, success_count, failed_count)`
triple passed to `_save_progress`. -/
structure SaveEvent where
  lastIndex : Int
  success : Nat
  failed : Nat
deriving DecidableEq

/-- The batch loop of `process_dataset`'s batched branch (lines 573-595):
each chunk is processed via `_process_batch` (whose return tells the caller
nothing about an interrupt), counts are accumulated, and a checkpoint
`(batch_actual_start + len(batch_data) - 1, success, failed)` is written
after every `interval`-th batch and after the final batch.  Returns the
checkpoints written and the record indices at which processing started.
Inter-batch rest sleeps are not modelled. -/
def runBatchesAux (interval totalBatches : Nat) :
    List (List StepRes) → Nat → Nat → Nat → Nat → List SaveEvent × List Nat
  | [], _, _, _, _ => ([], [])
  | b :: rest, start, bc, s, f =>
    let r := processBatchRun b start
    let s2 := s + r.1
    let f2 := f + r.2.1
    let bc2 := bc + 1
    let after := runBatchesAux interval totalBatches rest (start + b.length) bc2 s2 f2
    let here : List SaveEvent :=
      if bc2 % interval = 0 ∨ bc2 = totalBatches then
        [⟨(start : Int) + b.length - 1, s2, f2⟩]
      else []
    (here ++ after.1, r.2.2 ++ after.2)

/-- The batched branch of `process_dataset` (lines 566-595), from the
per-record outcomes of the window starting at `startIndex`:
`total_batches = (len + batch_size - 1) // batch_size`. -/
def processDatasetBatched (batchSize interval : Nat) (outs : List StepRes)
    (startIndex : Nat) : List SaveEvent × List Nat :=
  runBatchesAux interval ((outs.length + batchSize - 1) / batchSize)
    (chunksOf batchSize outs) startIndex 0 0 0

/-- The non-batched branch of `process_dataset` (lines 599-620): a
checkpoint after every record; on `KeyboardInterrupt` a checkpoint with the
current record's index and the counts so far, then break. -/
def processSeqRun : List StepRes → Nat → Nat → Nat → List SaveEvent × List Nat
  | [], _, _, _ => ([], [])
  | o :: rest, idx, s, f =>
    match o with
    | .ok =>
      let r := processSeqRun rest (idx + 1) (s + 1) f
      (⟨idx, s + 1, f⟩ :: r.1, idx :: r.2)
    | .fail =>
      let r := processSeqRun rest (idx + 1) s (f + 1)
      (⟨idx, s, f + 1⟩ :: r.1, idx :: r.2)
    | .interrupt => ([⟨idx, s, f⟩], [idx])
    | .err =>
      let r := processSeqRun rest (idx + 1) s (f + 1)
      (⟨idx, s, f + 1⟩ :: r.1, idx :: r.2)

/-- Claim C5 evaluated at the inputs on which it fails.  Batched mode,
batch size 2, checkpoint interval 1, records `[ok, interrupt, ok, ok]`
starting at index 0: the interrupt during record 1 does not stop the run —
records 2 and 3 are still processed — and the checkpoint written after the
interrupted batch is `(1, 1, 0)`, recording the never-completed record 1 as
processed instead of the last completed record 0.  Non-batched mode,
records `[ok, interrupt]`: the final checkpoint is `(1, 1, 0)`, again
recording the interrupted record's index rather than the last completed
record 0. -/
theorem c5_interrupt_behavior :
    processDatasetBatched 2 1 [.ok, .interrupt, .ok, .ok] 0 =
      ([⟨1, 1, 0⟩, ⟨3, 3, 0⟩], [0, 1, 2, 3]) ∧
    processSeqRun [.ok, .interrupt] 0 0 0 = ([⟨0, 1, 0⟩, ⟨1, 1, 0⟩], [0, 1]) := by
  constructor <;> rfl

/-- The rate-limit bookkeeping of a client from `src/api_client.py`:
`_last_call_time`, set by `_enforce_rate_limit` on every call attempt. -/
structure RateLimitState where
  lastCallTime : Nat
deriving DecidableEq

/-- The client classes defined in `src/api_client.py`. -/
inductive ClientClass
  | openRouterClient
  | geminiClient
deriving DecidableEq

/-- Whether the class (or its base `BaseAPIClient`) defines a member named
`reset_rate_limit`.  In `src/api_client.py` no class does: the base class
defines only `call_api` and `_enforce_rate_limit`, and neither subclass adds
a reset member, so `hasattr(client, 'reset_rate_limit')` is false for every
cached client. -/
def hasResetMember : ClientClass → Bool
  | _ => false

/-- A cached entry of `self.clients`. -/
structure CachedClient where
  cls : ClientClass
  rl : RateLimitState
deriving DecidableEq

/-- One iteration of the reset loop of `_process_batch` (lines 233-235):
call `reset_rate_limit()` — which would clear the timer — only when the
attribute exists. -/
def resetIfAvailable (c : CachedClient) : CachedClient :=
  if hasResetMember c.cls then ⟨c.cls, ⟨0⟩⟩ else c

/-- The chunk-start reset loop of `_process_batch` over all cached clients. -/
def resetClientsAtBatchStart (clients : List CachedClient) : List CachedClient :=
  clients.map resetIfAvailable

/-- Claim C6 evaluated against the code: the chunk-start loop leaves every
cached client — and hence every `_last_call_time` — exactly as it was,
because no client class defines `reset_rate_limit` and the `hasattr` guard
therefore never fires.  The claimed reset never happens. -/
theorem c6_no_rate_limit_reset (clients : List CachedClient) :
    resetClientsAtBatchStart clients = clients := by
  have h : ∀ c : CachedClient, resetIfAvailable c = c := by
    intro c
    rw [resetIfAvailable, hasResetMember]
    simp
  rw [resetClientsAtBatchStart]
  calc clients.map resetIfAvailable = clients.map id := List.map_congr_left (fun c _ => h c)
    _ = clients := List.map_id clients
